import Mathlib

/-!
Verification of the WebSocket broadcast server
(`src/python-server/websocket_server.py`).

The server keeps a set `connected_clients` of live connection handles,
registers a client on connect (welcome message to the new client, `system`
join announcement broadcast to the others), rebroadcasts each inbound chat
payload to every client, and unregisters and announces departure on
disconnect.

Shallow embedding conventions:
- connection handles are natural numbers; the registry is a `Finset ℕ`
  (Python `set.add` / `set.discard` semantics);
- the outcome of the underlying transport write `websocket.send` for each
  handle is given by a static environment `status : ℕ → SendResult`;
- `json.loads` applied to an inbound text frame either fails
  (`JSONDecodeError`) or yields a JSON value, so an inbound payload is
  modelled as `Option Json`;
- the per-session inbound stream (`async for message in websocket`) is a
  finite list of payloads; the stream ending models transport closure
  (normal close, abnormal close and keepalive timeout all surface there);
- timestamps produced by `datetime.now().isoformat()` are an opaque
  server-side string parameter `ts`.
-/

namespace WsServer

/-- JSON values as produced by Python's `json.loads`: an object is a list of
key/value fields (a later duplicate key overriding an earlier one, as in a
Python dict literal built by the parser). -/
inductive Json where
  | null
  | bool (b : Bool)
  | num (n : Int)
  | str (s : String)
  | arr (elems : List Json)
  | obj (fields : List (String × Json))

/-- Whether a JSON value is an object (a Python `dict` after `json.loads`);
only on a `dict` does the attribute access `data.get` succeed. -/
def Json.isObj : Json → Bool
  | .obj _ => true
  | _ => false

/-- Python `dict.get key default` on the dict built from an object's field
list: the last occurrence of a duplicate key wins. -/
def dictGet (fields : List (String × Json)) (k : String) (d : Json) : Json :=
  match fields.reverse.lookup k with
  | some v => v
  | none => d

/-- The exceptions `websocket.send` can raise: `ConnectionClosed` for a
closed transport, any other `Exception` for other I/O failures. -/
inductive SendError where
  | connectionClosed
  | transportError
deriving DecidableEq

/-- Transport write status of a connection handle in the environment. -/
inductive SendResult where
  | ok
  | closed
  | failed
deriving DecidableEq

/-- `await websocket.send(message)`: succeeds, or raises per the handle's
transport status. -/
def websocket_send (status : ℕ → SendResult) (c : ℕ) : Except SendError Unit :=
  match status c with
  | .ok => .ok ()
  | .closed => .error .connectionClosed
  | .failed => .error .transportError

/-- `WebSocketServer.send_to_client`: tries the write; `except
ConnectionClosed` discards the handle from `connected_clients`; `except
Exception` only logs.  Every exception of the write is handled, so the
function always returns (value `None`); the registry after the call is the
only observable effect. -/
def send_to_client (status : ℕ → SendResult) (s : Finset ℕ) (c : ℕ) : Finset ℕ :=
  match websocket_send status c with
  | .ok _ => s
  | .error .connectionClosed => s.erase c
  | .error .transportError => s

/-- The recipients targeted by one broadcast: every registered client except
the excluded one (`for client in self.connected_clients: if client !=
exclude`).  Python set iteration order is unspecified; the snapshot is taken
in sorted order, which fixes one order of the concurrently issued sends. -/
def broadcast_targets (s : Finset ℕ) (exclude : Option ℕ) : List ℕ :=
  (s.sort (· ≤ ·)).filter (fun c => decide (some c ≠ exclude))

/-- Result of one `WebSocketServer.broadcast` call.  `state` is the registry
after the fan-out (stale handles evicted by `send_to_client`); `outcomes`
records, per targeted recipient, the observable outcome of its send attempt
(what `send_to_client` logged); `retVal` is the Python return value of
`broadcast` itself. -/
structure BroadcastResult where
  state : Finset ℕ
  outcomes : List (ℕ × SendResult)
  retVal : Option (List (ℕ × SendResult))
deriving DecidableEq

/-- `WebSocketServer.broadcast`: early `return` on an empty registry;
otherwise build the target list, run the sends (`asyncio.gather` with
`return_exceptions=True`), log errors.  The Python function body has no
`return value` statement on either path, so the call returns `None`
(`retVal := none`). -/
def broadcast (status : ℕ → SendResult) (s : Finset ℕ) (exclude : Option ℕ) :
    BroadcastResult :=
  if s = ∅ then
    { state := s, outcomes := [], retVal := none }
  else
    let targets := broadcast_targets s exclude
    { state := targets.foldl (send_to_client status) s
      outcomes := targets.map (fun c => (c, status c))
      retVal := none }

/-- `self.connected_clients.add(websocket)` in `register_client`. -/
def registry_add (s : Finset ℕ) (ws : ℕ) : Finset ℕ := insert ws s

/-- `self.connected_clients.discard(websocket)` in `unregister_client` and
in `send_to_client`'s `ConnectionClosed` handler. -/
def registry_discard (s : Finset ℕ) (ws : ℕ) : Finset ℕ := s.erase ws

/-- The welcome envelope sent directly to a newly registered client. -/
def welcome_msg (ts : String) (count : ℕ) : List (String × Json) :=
  [("type", .str "system"),
   ("message", .str "Connected to server"),
   ("timestamp", .str ts),
   ("client_count", .num (count : Int))]

/-- The `system` join announcement broadcast from `register_client`. -/
def join_msg (ts : String) (count : ℕ) : List (String × Json) :=
  [("type", .str "system"),
   ("message", .str ("New client joined. Total: " ++ toString count)),
   ("timestamp", .str ts)]

/-- The `system` departure announcement broadcast from `unregister_client`. -/
def left_msg (ts : String) (count : ℕ) : List (String × Json) :=
  [("type", .str "system"),
   ("message", .str ("Client left. Total: " ++ toString count)),
   ("timestamp", .str ts)]

/-- The error envelope answered to the sender of a non-JSON payload. -/
def error_msg : List (String × Json) :=
  [("type", .str "error"),
   ("message", .str "Invalid message format")]

/-- Observable effects of `WebSocketServer.register_client` on one session:
the registry afterwards, the envelopes sent directly to this client, the
broadcast calls issued as (envelope, exclude) pairs, and whether an
exception escaped the call.  `welcomeOk` says whether the direct
`websocket.send` of the welcome envelope succeeds; when it raises
(`ConnectionClosed`: the client is already gone), the exception propagates
out of `register_client` after the handle was added, and the join
announcement is never broadcast. -/
structure RegisterResult where
  state : Finset ℕ
  directSends : List (List (String × Json))
  broadcastCalls : List (List (String × Json) × Option ℕ)
  raised : Bool

/-- `WebSocketServer.register_client`: add the handle, send the welcome
envelope carrying the current count to the new client, then broadcast the
join announcement with `exclude=websocket`. -/
def register_client (status : ℕ → SendResult) (ts : String) (s : Finset ℕ)
    (ws : ℕ) (welcomeOk : Bool) : RegisterResult :=
  let s1 := registry_add s ws
  let count := s1.card
  if welcomeOk then
    { state := (broadcast status s1 (some ws)).state
      directSends := [welcome_msg ts count]
      broadcastCalls := [(join_msg ts count, some ws)]
      raised := false }
  else
    { state := s1
      directSends := []
      broadcastCalls := []
      raised := true }

/-- `WebSocketServer.unregister_client`: discard the handle, then broadcast
the departure announcement with no `exclude` argument.  Returns the registry
after the fan-out together with the broadcast call issued. -/
def unregister_client (status : ℕ → SendResult) (ts : String) (s : Finset ℕ)
    (ws : ℕ) : Finset ℕ × (List (String × Json) × Option ℕ) :=
  let s1 := registry_discard s ws
  ((broadcast status s1 none).state, (left_msg ts s1.card, none))

/-- What the per-message `try` block in `handle_client` does with one parsed
payload. -/
inductive MsgAction where
  | didBroadcast (env : List (String × Json))
  | sentError
  | swallowedExn

/-- The chat envelope `broadcast_msg` built from a parsed JSON object:
recognized fields `content` and `sender` are extracted with `dict.get`
defaults, the timestamp is assigned server-side, and no other field of the
payload is copied. -/
def broadcast_msg (ts : String) (fields : List (String × Json)) :
    List (String × Json) :=
  [("type", .str "message"),
   ("content", dictGet fields "content" (.str "")),
   ("sender", dictGet fields "sender" (.str "anonymous")),
   ("timestamp", .str ts)]

/-- The per-message `try` block of `handle_client` on one inbound payload
(`none` = `json.loads` raised `JSONDecodeError`): a parse failure answers
the error envelope to the sender; a parsed object is rebroadcast with a
server-assigned timestamp; on any other JSON value `data.get` raises
`AttributeError`, which the generic `except Exception` handler only logs. -/
def process_message (ts : String) (payload : Option Json) : MsgAction :=
  match payload with
  | none => .sentError
  | some (.obj fields) => .didBroadcast (broadcast_msg ts fields)
  | some _ => .swallowedExn

/-- Observable effects of the inbound loop (and of a whole session):
registry afterwards, direct sends to this session's socket, broadcast calls
issued. -/
structure LoopResult where
  state : Finset ℕ
  directSends : List (List (String × Json))
  broadcastCalls : List (List (String × Json) × Option ℕ)

/-- The `async for message in websocket` loop of `handle_client` over the
session's inbound payloads.  A broadcast of a chat envelope passes no
`exclude` argument and may evict stale handles from the registry; an error
reply is a direct send to this session's socket; a swallowed exception
leaves no observable effect.  The loop never exits early on a payload:
transport closure is the end of the payload list. -/
def inbound_loop (status : ℕ → SendResult) (ts : String) (s : Finset ℕ) :
    List (Option Json) → LoopResult
  | [] => { state := s, directSends := [], broadcastCalls := [] }
  | p :: rest =>
    match process_message ts p with
    | .didBroadcast env =>
      let r := inbound_loop status ts (broadcast status s none).state rest
      { r with broadcastCalls := (env, none) :: r.broadcastCalls }
    | .sentError =>
      let r := inbound_loop status ts s rest
      { r with directSends := error_msg :: r.directSends }
    | .swallowedExn => inbound_loop status ts s rest

/-- How a session's inbound stream ended: normal close (outer `except
ConnectionClosed`), abnormal close or keepalive timeout (both raise out of
the iteration and are caught by the outer `except Exception` /
`ConnectionClosed` arms).  The three are treated identically by
`handle_client`. -/
inductive Termination where
  | normalClose
  | abnormalClose
  | keepaliveTimeout
deriving DecidableEq

/-- Observable effects of one whole `handle_client` run. -/
structure SessionLog where
  state : Finset ℕ
  directSends : List (List (String × Json))
  broadcastCalls : List (List (String × Json) × Option ℕ)
  unregistered : Bool
  raised : Bool

/-- `WebSocketServer.handle_client`: register (NOT inside the `try`), run
the inbound loop inside `try`, and in the `finally` block unregister and
announce departure.  When the welcome send inside `register_client` raises,
the exception escapes `handle_client` before the `try`/`finally` is entered,
so no unregistration happens.  All termination causes inside the `try` reach
the `finally` block, so `term` does not affect the result. -/
def handle_client (status : ℕ → SendResult) (ts : String) (ws : ℕ)
    (welcomeOk : Bool) (msgs : List (Option Json)) (term : Termination)
    (s : Finset ℕ) : SessionLog :=
  let r := register_client status ts s ws welcomeOk
  if r.raised then
    { state := r.state
      directSends := r.directSends
      broadcastCalls := r.broadcastCalls
      unregistered := false
      raised := true }
  else
    let l := inbound_loop status ts r.state msgs
    let u := unregister_client status ts l.state ws
    { state := u.1
      directSends := r.directSends ++ l.directSends
      broadcastCalls := r.broadcastCalls ++ l.broadcastCalls ++ [u.2]
      unregistered := true
      raised := false }

/-! ### Helper lemmas about the broadcast fan-out -/

theorem broadcast_targets_none (s : Finset ℕ) :
    broadcast_targets s none = s.sort (· ≤ ·) := by
  unfold broadcast_targets
  exact List.filter_eq_self.mpr (fun a _ => by simp)

theorem broadcast_targets_some (s : Finset ℕ) (ws : ℕ) :
    broadcast_targets s (some ws) = (s.sort (· ≤ ·)).erase ws := by
  unfold broadcast_targets
  rw [(Finset.sort_nodup _ s).erase_eq_filter ws]
  exact List.filter_congr (fun c _ => by by_cases h : c = ws <;> simp [bne, h])

theorem mem_broadcast_targets {s : Finset ℕ} {exclude : Option ℕ} {c : ℕ} :
    c ∈ broadcast_targets s exclude ↔ c ∈ s ∧ some c ≠ exclude := by
  unfold broadcast_targets
  simp [List.mem_filter, Finset.mem_sort]

theorem send_to_client_not_mem (status : ℕ → SendResult) {c : ℕ} (a : ℕ)
    {s : Finset ℕ} (h : c ∉ s) : c ∉ send_to_client status s a := by
  unfold send_to_client websocket_send
  cases status a <;> simp_all [Finset.mem_erase]

theorem foldl_send_not_mem (status : ℕ → SendResult) {c : ℕ} (l : List ℕ)
    {s : Finset ℕ} (h : c ∉ s) : c ∉ l.foldl (send_to_client status) s := by
  induction l generalizing s with
  | nil => exact h
  | cons a t ih => exact ih (send_to_client_not_mem status a h)

theorem foldl_send_removes_closed (status : ℕ → SendResult) {c : ℕ}
    (hc : status c = .closed) (l : List ℕ) {s : Finset ℕ} (hl : c ∈ l) :
    c ∉ l.foldl (send_to_client status) s := by
  induction l generalizing s with
  | nil => cases hl
  | cons a t ih =>
    by_cases hct : c ∈ t
    · exact ih hct
    · have hca : c = a := (List.mem_cons.mp hl).resolve_right hct
      subst hca
      have hout : c ∉ send_to_client status s c := by
        simp [send_to_client, websocket_send, hc]
      exact foldl_send_not_mem status t hout

theorem broadcast_state_not_mem (status : ℕ → SendResult) {c : ℕ}
    (exclude : Option ℕ) {s : Finset ℕ} (h : c ∉ s) :
    c ∉ (broadcast status s exclude).state := by
  unfold broadcast
  split
  · exact h
  · exact foldl_send_not_mem status _ h

theorem broadcast_state_evicts (status : ℕ → SendResult) {c : ℕ}
    {s : Finset ℕ} {exclude : Option ℕ} (hc : c ∈ s) (hex : some c ≠ exclude)
    (hclosed : status c = .closed) :
    c ∉ (broadcast status s exclude).state := by
  unfold broadcast
  split
  · simp_all
  · exact foldl_send_removes_closed status hclosed _
      (mem_broadcast_targets.mpr ⟨hc, hex⟩)

theorem broadcast_outcomes_of_ne_empty (status : ℕ → SendResult)
    {s : Finset ℕ} (hs : s ≠ ∅) (exclude : Option ℕ) :
    (broadcast status s exclude).outcomes
      = (broadcast_targets s exclude).map (fun c => (c, status c)) := by
  unfold broadcast
  split
  · exact absurd ‹s = ∅› hs
  · rfl

theorem mem_broadcast_outcomes (status : ℕ → SendResult) {s : Finset ℕ}
    {exclude : Option ℕ} {c : ℕ} (hs : s ≠ ∅) :
    (c, status c) ∈ (broadcast status s exclude).outcomes
      ↔ c ∈ s ∧ some c ≠ exclude := by
  rw [broadcast_outcomes_of_ne_empty status hs exclude]
  constructor
  · intro h
    rcases List.mem_map.mp h with ⟨a, ha, hac⟩
    have : a = c := congrArg Prod.fst hac
    subst this
    exact mem_broadcast_targets.mp ha
  · intro h
    exact List.mem_map.mpr ⟨c, mem_broadcast_targets.mpr h, rfl⟩

theorem broadcast_outcomes_length_none (status : ℕ → SendResult)
    {s : Finset ℕ} (hs : s ≠ ∅) :
    (broadcast status s none).outcomes.length = s.card := by
  rw [broadcast_outcomes_of_ne_empty status hs none, List.length_map,
    broadcast_targets_none, Finset.length_sort]

theorem broadcast_outcomes_length_some (status : ℕ → SendResult)
    {s : Finset ℕ} {ws : ℕ} (hws : ws ∈ s) :
    (broadcast status s (some ws)).outcomes.length = s.card - 1 := by
  have hs : s ≠ ∅ := Finset.ne_empty_of_mem hws
  rw [broadcast_outcomes_of_ne_empty status hs (some ws), List.length_map,
    broadcast_targets_some,
    List.length_erase_of_mem ((Finset.mem_sort _).mpr hws), Finset.length_sort]

/-! ### Claims -/

/-- C1: with K connections registered, a chat-type broadcast (issued by the
inbound loop with no exclusion argument) targets all K connections, the
sender included, while the join announcement issued by `register_client`
passes the joining connection as the excluded handle and targets exactly
the K-1 other connections. -/
theorem chat_broadcast_all_join_excludes_sender
    (status : ℕ → SendResult) (ts : String) (s : Finset ℕ) (ws : ℕ)
    (hws : ws ∈ s) :
    ((broadcast status s none).outcomes.length = s.card
      ∧ (ws, status ws) ∈ (broadcast status s none).outcomes)
    ∧ ((broadcast status s (some ws)).outcomes.length = s.card - 1
      ∧ ∀ c : ℕ, (c, status c) ∈ (broadcast status s (some ws)).outcomes
          ↔ c ∈ s ∧ c ≠ ws)
    ∧ (register_client status ts s ws true).broadcastCalls
        = [(join_msg ts (registry_add s ws).card, some ws)]
    ∧ ∀ (fields : List (String × Json)) (rest : List (Option Json))
        (s0 : Finset ℕ),
        (inbound_loop status ts s0 (some (Json.obj fields) :: rest)).broadcastCalls
          = (broadcast_msg ts fields, none)
            :: (inbound_loop status ts (broadcast status s0 none).state
                rest).broadcastCalls := by
  have hs : s ≠ ∅ := Finset.ne_empty_of_mem hws
  refine ⟨⟨broadcast_outcomes_length_none status hs, ?_⟩,
    ⟨broadcast_outcomes_length_some status hws, ?_⟩, rfl, ?_⟩
  · exact (mem_broadcast_outcomes status hs).mpr ⟨hws, by simp⟩
  · intro c
    rw [mem_broadcast_outcomes status hs]
    simp
  · intro fields rest s0
    rfl

/-- Witness for C1 at `s = {1, 2}`, `ws = 1`. -/
theorem chat_broadcast_all_join_excludes_sender_witness :
    ((1 : ℕ) ∈ ({1, 2} : Finset ℕ))
    ∧ (broadcast (fun _ => SendResult.ok) {1, 2} none).outcomes.length
        = ({1, 2} : Finset ℕ).card
    ∧ (broadcast (fun _ => SendResult.ok) {1, 2} (some 1)).outcomes.length
        = ({1, 2} : Finset ℕ).card - 1 :=
  ⟨by decide,
   (chat_broadcast_all_join_excludes_sender (fun _ => .ok) "t" {1, 2} 1
     (by decide)).1.1,
   (chat_broadcast_all_join_excludes_sender (fun _ => .ok) "t" {1, 2} 1
     (by decide)).2.1.1⟩

/-- C2: a non-JSON inbound payload makes the handler send exactly one
`{"type":"error","message":"Invalid message format"}` envelope back to the
sending connection only, with no broadcast and no registry change, and the
inbound loop continues with the remaining messages. -/
theorem invalid_json_single_error_reply
    (status : ℕ → SendResult) (ts : String) (s : Finset ℕ)
    (rest : List (Option Json)) :
    inbound_loop status ts s (none :: rest)
       = { inbound_loop status ts s rest with
           directSends := error_msg
             :: (inbound_loop status ts s rest).directSends }
    ∧ inbound_loop status ts s [none]
       = { state := s, directSends := [error_msg], broadcastCalls := [] } :=
  ⟨rfl, rfl⟩

/-- C3: when a targeted handle's transport is closed, the
`ConnectionClosed` raised by its send is consumed inside `send_to_client`
(which turns it into a registry discard), the stale handle is gone from the
registry after the broadcast, and every other targeted recipient of the
snapshot still gets its send attempt recorded. -/
theorem broadcast_survives_closed_recipient
    (status : ℕ → SendResult) (s : Finset ℕ) (exclude : Option ℕ) (c : ℕ)
    (hc : c ∈ s) (hex : some c ≠ exclude) (hclosed : status c = .closed) :
    (∀ s' : Finset ℕ, send_to_client status s' c = registry_discard s' c)
    ∧ c ∉ (broadcast status s exclude).state
    ∧ (∀ c' : ℕ, c' ∈ s → some c' ≠ exclude →
        (c', status c') ∈ (broadcast status s exclude).outcomes) := by
  refine ⟨?_, broadcast_state_evicts status hc hex hclosed, ?_⟩
  · intro s'
    simp [send_to_client, websocket_send, hclosed, registry_discard]
  · intro c' h1 h2
    exact (mem_broadcast_outcomes status (Finset.ne_empty_of_mem hc)).mpr
      ⟨h1, h2⟩

/-- Witness for C3 at `s = {0, 1}`, closed recipient `0`. -/
theorem broadcast_survives_closed_recipient_witness :
    ((0 : ℕ) ∈ ({0, 1} : Finset ℕ))
    ∧ (0 : ℕ) ∉ (broadcast
        (fun n => if n = 0 then SendResult.closed else .ok) {0, 1}
        none).state :=
  ⟨by decide,
   (broadcast_survives_closed_recipient
     (fun n => if n = 0 then SendResult.closed else .ok) {0, 1} none 0
     (by decide) (by decide) (by decide)).2.1⟩

/-- C4: on session termination the handler discards the departing handle
first and only then broadcasts the `system` "client left" envelope with no
excluded handle, so the fan-out targets exactly the connections that remain
registered — the departed handle is already absent from the iterated set. -/
theorem departure_broadcast_targets_remaining
    (status : ℕ → SendResult) (ts : String) (s : Finset ℕ) (ws : ℕ) :
    (unregister_client status ts s ws).2
       = (left_msg ts (registry_discard s ws).card, none)
    ∧ (∀ c : ℕ, c ∈ broadcast_targets (registry_discard s ws) none
        ↔ c ∈ s ∧ c ≠ ws)
    ∧ ws ∉ broadcast_targets (registry_discard s ws) none
    ∧ ∀ (msgs : List (Option Json)) (term : Termination),
        (handle_client status ts ws true msgs term s).broadcastCalls.getLast?
          = some ((unregister_client status ts
              (inbound_loop status ts
                (register_client status ts s ws true).state msgs).state
              ws).2) := by
  have hmem : ∀ c : ℕ, c ∈ broadcast_targets (registry_discard s ws) none
      ↔ c ∈ s ∧ c ≠ ws := by
    intro c
    rw [mem_broadcast_targets]
    simp [registry_discard, Finset.mem_erase, and_comm]
  refine ⟨rfl, hmem, ?_, ?_⟩
  · intro h
    exact ((hmem ws).mp h).2 rfl
  · intro msgs term
    show (_ ++ _ ++ [_] : List _).getLast? = _
    rw [List.getLast?_concat]

/-- C5 counterexample: when the welcome send inside `register_client`
raises (the client disconnected right after connecting), the exception
escapes `handle_client` before its `try`/`finally`, so the already-added
handle is never unregistered and remains in the registry. -/
theorem registration_failure_stays_registered :
    (handle_client (fun _ => SendResult.ok) "t" 0 false []
        .normalClose ∅).unregistered = false
    ∧ 0 ∈ (handle_client (fun _ => SendResult.ok) "t" 0 false []
        .normalClose ∅).state := by
  refine ⟨rfl, ?_⟩
  show (0 : ℕ) ∈ registry_add ∅ 0
  simp [registry_add]

/-- C5 amended: for every session whose registration completed (the welcome
send succeeded), every termination cause — normal close, abnormal close,
keepalive timeout, with any inbound traffic before it — reaches the
`finally` block, which unregisters the handle: the handle is absent from
the registry when the handler finishes.  If instead the welcome send during
registration raises, the exception escapes before the `try`/`finally` and
the handle stays registered (see the counterexample). -/
theorem completed_registration_always_unregisters
    (status : ℕ → SendResult) (ts : String) (ws : ℕ)
    (msgs : List (Option Json)) (term : Termination) (s : Finset ℕ) :
    (handle_client status ts ws true msgs term s).unregistered = true
    ∧ ws ∉ (handle_client status ts ws true msgs term s).state := by
  refine ⟨rfl, ?_⟩
  exact broadcast_state_not_mem status none (Finset.not_mem_erase ws _)

/-- C6: an inbound message whose processing raises anything other than a
JSON parse failure (here: any JSON value that is not an object, on which
the field extraction raises) is swallowed by the generic per-message
handler and the loop continues unchanged with the next message; the session
handler itself never raises out of the loop and always reaches the
disconnect path, whatever the inbound traffic and close cause. -/
theorem problem_message_never_terminates_session
    (status : ℕ → SendResult) (ts : String) (ws : ℕ) (s : Finset ℕ)
    (v : Json) (hv : v.isObj = false) (rest : List (Option Json)) :
    inbound_loop status ts s (some v :: rest) = inbound_loop status ts s rest
    ∧ ∀ (msgs : List (Option Json)) (term : Termination),
        (handle_client status ts ws true msgs term s).raised = false
        ∧ (handle_client status ts ws true msgs term s).unregistered
            = true := by
  constructor
  · cases v <;> first | rfl | simp [Json.isObj] at hv
  · intro msgs term
    exact ⟨rfl, rfl⟩

/-- Witness for C6 at the non-object payload `"hi"`. -/
theorem problem_message_never_terminates_session_witness :
    (Json.str "hi").isObj = false
    ∧ inbound_loop (fun _ => SendResult.ok) "t" ∅ [some (Json.str "hi")]
        = inbound_loop (fun _ => SendResult.ok) "t" ∅ [] :=
  ⟨rfl,
   (problem_message_never_terminates_session (fun _ => .ok) "t" 0 ∅
     (Json.str "hi") rfl []).1⟩

/-- C7: a payload parsing to a JSON object is rebroadcast as an envelope of
type `"message"` whose `content` and `sender` come from the payload's
fields with defaults `""` and `"anonymous"` when missing, whose timestamp
is the server-assigned one, and which carries no other field of the
payload. -/
theorem object_payload_envelope_fields
    (ts : String) (fields : List (String × Json)) :
    process_message ts (some (Json.obj fields))
        = .didBroadcast (broadcast_msg ts fields)
    ∧ (broadcast_msg ts fields).lookup "type" = some (Json.str "message")
    ∧ (broadcast_msg ts fields).lookup "content"
        = some (dictGet fields "content" (Json.str ""))
    ∧ (broadcast_msg ts fields).lookup "sender"
        = some (dictGet fields "sender" (Json.str "anonymous"))
    ∧ (broadcast_msg ts fields).lookup "timestamp" = some (Json.str ts)
    ∧ (fields.reverse.lookup "content" = none →
        dictGet fields "content" (Json.str "") = Json.str "")
    ∧ (fields.reverse.lookup "sender" = none →
        dictGet fields "sender" (Json.str "anonymous")
          = Json.str "anonymous")
    ∧ ∀ k : String, k ≠ "type" → k ≠ "content" → k ≠ "sender" →
        k ≠ "timestamp" → (broadcast_msg ts fields).lookup k = none := by
  refine ⟨rfl, rfl, rfl, rfl, rfl, ?_, ?_, ?_⟩
  · intro h
    simp [dictGet, h]
  · intro h
    simp [dictGet, h]
  · intro k h1 h2 h3 h4
    have e1 : (k == "type") = false := beq_eq_false_iff_ne.mpr h1
    have e2 : (k == "content") = false := beq_eq_false_iff_ne.mpr h2
    have e3 : (k == "sender") = false := beq_eq_false_iff_ne.mpr h3
    have e4 : (k == "timestamp") = false := beq_eq_false_iff_ne.mpr h4
    simp [broadcast_msg, List.lookup, e1, e2, e3, e4]

/-- Witness for C7 at the payload `{"content":"hi","junk":null}`. -/
theorem object_payload_envelope_fields_witness :
    process_message "t"
        (some (Json.obj [("content", Json.str "hi"), ("junk", Json.null)]))
      = MsgAction.didBroadcast
          (broadcast_msg "t" [("content", Json.str "hi"), ("junk", Json.null)])
    ∧ (broadcast_msg "t"
        [("content", Json.str "hi"), ("junk", Json.null)]).lookup "junk"
      = none :=
  ⟨(object_payload_envelope_fields "t"
      [("content", Json.str "hi"), ("junk", Json.null)]).1,
   (object_payload_envelope_fields "t"
      [("content", Json.str "hi"), ("junk", Json.null)]).2.2.2.2.2.2.2 "junk"
     (by decide) (by decide) (by decide) (by decide)⟩

/-- C8 counterexample: `broadcast` does not hand the per-recipient outcome
list back to its caller — with one registered client targeted, the Python
call still returns `None`, even though one send outcome was produced and
logged internally. -/
theorem broadcast_call_returns_no_outcome_list :
    (broadcast (fun _ => SendResult.ok) {0} none).retVal = none
    ∧ (broadcast (fun _ => SendResult.ok) {0} none).outcomes
        = [(0, SendResult.ok)] := by
  constructor
  · unfold broadcast
    split <;> rfl
  · rw [broadcast_outcomes_of_ne_empty _ (by decide) none,
      broadcast_targets_none, Finset.sort_singleton]
    rfl

/-- C8 amended: every `broadcast` call computes one outcome per targeted
recipient internally (for its own error logging) but returns `None` to its
caller; the outcome list is never returned. -/
theorem broadcast_outcomes_internal_only
    (status : ℕ → SendResult) (s : Finset ℕ) (exclude : Option ℕ) :
    (broadcast status s exclude).retVal = none
    ∧ (broadcast status s exclude).outcomes.length
        = if s = ∅ then 0 else (broadcast_targets s exclude).length := by
  constructor
  · unfold broadcast
    split <;> rfl
  · unfold broadcast
    split
    · next h => simp [h]
    · next h => simp [h]

/-- C9: the registry has set semantics — re-adding a present handle changes
nothing (including the count), removing an absent handle is a no-op, add
and remove are idempotent. -/
theorem registry_set_semantics (s : Finset ℕ) (h : ℕ) :
    registry_add (registry_add s h) h = registry_add s h
    ∧ (h ∈ s → registry_add s h = s ∧ (registry_add s h).card = s.card)
    ∧ (h ∉ s → registry_discard s h = s)
    ∧ registry_discard (registry_discard s h) h = registry_discard s h := by
  simp only [registry_add, registry_discard]
  refine ⟨Finset.insert_idem h s, fun hm =>
    ⟨Finset.insert_eq_self.mpr hm, by rw [Finset.insert_eq_self.mpr hm]⟩,
    fun hm => Finset.erase_eq_of_not_mem hm, Finset.erase_idem⟩

/-- Witness for C9 at `s = {1, 2}` with present handle `1` and absent
handle `3`. -/
theorem registry_set_semantics_witness :
    registry_add (registry_add ({1, 2} : Finset ℕ) 1) 1
        = registry_add {1, 2} 1
    ∧ ((1 : ℕ) ∈ ({1, 2} : Finset ℕ)
        ∧ registry_add ({1, 2} : Finset ℕ) 1 = {1, 2})
    ∧ ((3 : ℕ) ∉ ({1, 2} : Finset ℕ)
        ∧ registry_discard ({1, 2} : Finset ℕ) 3 = {1, 2}) :=
  ⟨(registry_set_semantics {1, 2} 1).1,
   ⟨by decide, ((registry_set_semantics {1, 2} 1).2.1 (by decide)).1⟩,
   ⟨by decide, (registry_set_semantics {1, 2} 3).2.2.1 (by decide)⟩⟩

/-- C10: a payload that is valid JSON but not an object makes the field
extraction raise; the generic per-message handler swallows it, so the
sender gets no reply at all and nothing is broadcast, and the loop
continues — unlike a non-JSON payload, which gets the error envelope. The
session survives both. -/
theorem nonobject_json_silently_dropped
    (status : ℕ → SendResult) (ts : String) (s : Finset ℕ)
    (rest : List (Option Json)) (v : Json) (hv : v.isObj = false) :
    process_message ts (some v) = .swallowedExn
    ∧ inbound_loop status ts s (some v :: rest) = inbound_loop status ts s rest
    ∧ (inbound_loop status ts s [some v]).directSends = []
    ∧ (inbound_loop status ts s [some v]).broadcastCalls = []
    ∧ process_message ts none = .sentError
    ∧ (inbound_loop status ts s [none]).directSends = [error_msg] := by
  have hp : process_message ts (some v) = .swallowedExn := by
    cases v <;> first | rfl | simp [Json.isObj] at hv
  refine ⟨hp, ?_, ?_, ?_, rfl, rfl⟩
  · simp [inbound_loop, hp]
  · simp [inbound_loop, hp]
  · simp [inbound_loop, hp]

/-- Witness for C10 at the payload `[]` (a JSON array). -/
theorem nonobject_json_silently_dropped_witness :
    (Json.arr []).isObj = false
    ∧ process_message "t" (some (Json.arr [])) = MsgAction.swallowedExn :=
  ⟨rfl,
   (nonobject_json_silently_dropped (fun _ => SendResult.ok) "t" ∅ []
     (Json.arr []) rfl).1⟩

end WsServer
